import Mathlib

/-!
Verification of the Strava webhook pipeline of strautomator-web
(`src/routes/api/strava.ts`), as a shallow embedding.

The embedding models the three webhook routes and their helper
`webhookValidator` as pure functions from the request data and the
relevant process state (the in-memory `ignoredUsers` list, the user
store, the outcome of the external activity processor) to a
`HandlerResult`: the rendered HTTP response, the ordered list of
side effects issued (calls to external collaborators in program
order), and the resulting in-memory ignored-users list.   External
collaborators from `strautomator-core` (`users.getById`,
`strava.activities.processActivity`, `strava.athletes.deauthCheck`,
`database.appState`) are treated as oracles or recorded as effects,
exactly as the route code invokes them.
-/

namespace Strautomator

/-- JSON-ish primitive values appearing in rendered response bodies. -/
inductive JVal where
  | bool (b : Bool)
  | str (s : String)
  | num (n : Int)
deriving DecidableEq, Repr

/-- A rendered HTTP response: `webserver.renderJson` (an object body,
status 200) or `webserver.renderError` (a message and an explicit status). -/
inductive Response where
  | json (body : List (String × JVal))
  | error (message : String) (status : Nat)
deriving DecidableEq, Repr

/-- JS truthiness of an optional string-valued field: an absent field
(`undefined`) and the empty string are falsy, every other string truthy. -/
def strT : Option String → Bool
  | none => false
  | some s => s != ""

/-- JS truthiness of an optional number-valued field: an absent field
(`undefined`) and `0` are falsy, every other number truthy. -/
def intT : Option Int → Bool
  | none => false
  | some n => n != 0

/-- The `updates` sub-object of a webhook event body; `authorized` is a
string-typed boolean on the wire (`"false"`), as the source compares it. -/
structure WebhookUpdates where
  authorized : Option String
deriving DecidableEq, Repr

/-- The POST body of a Strava webhook event, with exactly the fields the
route code reads.  `owner_id` is only ever used through `.toString()` in
the source, so it is modelled directly as the resulting string. -/
structure WebhookBody where
  aspect_type : Option String
  event_time : Option Int
  object_id : Option Int
  object_type : Option String
  owner_id : String
  updates : Option WebhookUpdates
deriving DecidableEq, Repr

/-- The user's Strava OAuth tokens (`user.stravaTokens`). -/
structure StravaTokens where
  accessToken : Option String
  refreshToken : Option String
deriving DecidableEq, Repr

/-- The part of `user.preferences` the webhook routes read. -/
structure UserPreferences where
  delayedProcessing : Bool
deriving DecidableEq, Repr

/-- The part of the user record the webhook routes read and write.
Timestamps are modelled as natural numbers (`none` = never set). -/
structure UserData where
  id : String
  displayName : String
  suspended : Bool
  stravaTokens : Option StravaTokens
  preferences : UserPreferences
  dateLastActivity : Option Nat
  dateLastProcessedActivity : Option Nat
deriving DecidableEq, Repr

/-- The partial user record written back by `users.update(updatedUser)`:
the source builds exactly `{id, displayName, dateLastActivity,
dateLastProcessedActivity}`. -/
structure UpdatedUser where
  id : String
  displayName : String
  dateLastActivity : Option Nat
  dateLastProcessedActivity : Option Nat
deriving DecidableEq, Repr

/-- A side effect issued by a route handler, i.e. a call to an external
collaborator, recorded in program order. -/
inductive Effect where
  | deauthCheck (ownerId : String)
  | fireRelay (ownerId : String) (objectId : Int)
  | logRelayFailure (ownerId : String) (objectId : Int)
  | pushIgnored (userId : String)
  | appStateSet (key : String) (ignoredList : List String)
  | queueActivity (userId : String) (activityId : Int)
  | processActivity (userId : String) (activityId : Int)
  | usersUpdate (u : UpdatedUser)
  | checkQueuedActivities
deriving DecidableEq, Repr

/-- Result of `webhookValidator`: either the handler may proceed (the
source function returned `true`), or it already rendered a response
(returned `false`), possibly after issuing effects. -/
inductive ValidatorResult where
  | proceed
  | reject (response : Response) (effects : List Effect)
deriving DecidableEq, Repr

/-- HTTP method of the request being validated. -/
inductive Method where
  | GET
  | POST
deriving DecidableEq, Repr

/-- The result of running one route handler: the rendered response, the
effects issued in program order, and the in-memory ignored-users list
after the handler ran. -/
structure HandlerResult where
  response : Response
  effects : List Effect
  ignored : List String
deriving DecidableEq, Repr

/-- The condition `obj.updates && obj.updates.authorized == "false"`. -/
def updatesAuthorizedFalse : Option WebhookUpdates → Bool
  | none => false
  | some u => u.authorized == some "false"

/-- Embedding of `webhookValidator` (strava.ts lines 25-60).  For a
non-POST request every check is skipped and the validator proceeds.  For
a POST request it rejects with 400 when any of `aspect_type`,
`event_time`, `object_id`, `object_type` is JS-falsy; then handles
deauthorization (`object_type == "athlete"` and
`updates.authorized == "false"`) by calling the external
`strava.athletes.deauthCheck` and rendering `{authorized: false}`; then
rejects everything that is not a created activity with `{ok: false}`. -/
def webhookValidator (method : Method) (obj : WebhookBody) : ValidatorResult :=
  match method with
  | .GET => .proceed
  | .POST =>
    if !strT obj.aspect_type || !intT obj.event_time
        || !intT obj.object_id || !strT obj.object_type then
      .reject (.error "Missing event data" 400) []
    else if obj.object_type == some "athlete" && updatesAuthorizedFalse obj.updates then
      .reject (.json [("authorized", .bool false)]) [.deauthCheck obj.owner_id]
    else if obj.aspect_type != some "create" || obj.object_type != some "activity" then
      .reject (.json [("ok", .bool false)]) []
    else
      .proceed

/-- Transport outcome of the fire-and-forget internal relay call
(`axios(options).catch(...)`, strava.ts line 439).  The call is not
awaited: the handler's response never depends on this outcome. -/
inductive RelayOutcome where
  | delivered
  | failed (err : String)
deriving DecidableEq, Repr

/-- Embedding of the public `POST /webhook/:urlToken` handler
(strava.ts lines 416-446).  After `webhookValidator`, an event whose
`owner_id` is in the in-memory ignored list is answered `{ok: false}`
with no further work; otherwise the handler fires the internal relay
call (not awaited; a transport failure only produces a debug log) and
renders `{ok: true}`. -/
def stravaWebhookPost (ignored : List String) (obj : WebhookBody)
    (relay : RelayOutcome) : HandlerResult :=
  match webhookValidator .POST obj with
  | .reject resp effs => { response := resp, effects := effs, ignored := ignored }
  | .proceed =>
    if ignored.contains obj.owner_id then
      { response := .json [("ok", .bool false)], effects := [], ignored := ignored }
    else
      let objectId := obj.object_id.getD 0
      let relayEffects :=
        match relay with
        | .delivered => [Effect.fireRelay obj.owner_id objectId]
        | .failed _ =>
          [Effect.fireRelay obj.owner_id objectId,
           Effect.logRelayFailure obj.owner_id objectId]
      { response := .json [("ok", .bool true)], effects := relayEffects,
        ignored := ignored }

/-- The guard `!user.stravaTokens || (!user.stravaTokens.accessToken &&
!user.stravaTokens.refreshToken)` (strava.ts line 466), negated: the
user holds usable tokens. -/
def tokensOk (t : Option StravaTokens) : Bool :=
  match t with
  | none => false
  | some tk => strT tk.accessToken || strT tk.refreshToken

/-- Result of the external `strava.activities.processActivity` call:
`none` models a falsy return, otherwise an object with an optional
`error` field. -/
structure Processed where
  error : Option String
deriving DecidableEq, Repr

/-- The test `processed && !processed.error` (strava.ts line 481). -/
def procSuccess : Option Processed → Bool
  | none => false
  | some p => !strT p.error

/-- Embedding of the internal relay handler
`GET /webhook/:urlToken/:userId/:activityId` (strava.ts lines 451-496).
`webhookValidator` runs first (vacuously, the method being GET).  An
unknown `userId` is appended to the in-memory ignored list, the full
list is persisted to the app-state record `"users"`, and 404 is
rendered.  A known user without tokens gets 400; a suspended user gets
`{ok: false, message}` with no further work.  Otherwise
`dateLastActivity` is set to `now` and, depending on
`preferences.delayedProcessing`, the activity is queued (and
`dateLastProcessedActivity` set to `now`) or processed synchronously
(`dateLastProcessedActivity` set to `now` only when the processor
returned a result without an error); the partial user record is then
written back, the queue check is triggered, and `{ok: true}` rendered. -/
def stravaWebhookActivity (ignored : List String)
    (getById : String → Option UserData) (now : Nat)
    (userId : String) (activityId : Int)
    (procResult : Option Processed) : HandlerResult :=
  match webhookValidator .GET
      { aspect_type := none, event_time := none, object_id := none,
        object_type := none, owner_id := userId, updates := none } with
  | .reject resp effs => { response := resp, effects := effs, ignored := ignored }
  | .proceed =>
    match getById userId with
    | none =>
      { response := .error "User not found" 404,
        effects := [.pushIgnored userId, .appStateSet "users" (ignored ++ [userId])],
        ignored := ignored ++ [userId] }
    | some user =>
      if !tokensOk user.stravaTokens then
        { response := .error "User has no access tokens" 400,
          effects := [], ignored := ignored }
      else if user.suspended then
        { response := .json [("ok", .bool false),
            ("message", .str ("User " ++ user.id ++ " is suspended"))],
          effects := [], ignored := ignored }
      else if user.preferences.delayedProcessing then
        { response := .json [("ok", .bool true)],
          effects := [.queueActivity user.id activityId,
            .usersUpdate ⟨user.id, user.displayName, some now, some now⟩,
            .checkQueuedActivities],
          ignored := ignored }
      else
        { response := .json [("ok", .bool true)],
          effects := [.processActivity user.id activityId,
            .usersUpdate ⟨user.id, user.displayName, some now,
              if procSuccess procResult then some now
              else user.dateLastProcessedActivity⟩,
            .checkQueuedActivities],
          ignored := ignored }

/-- Embedding of the subscription-handshake handler
`GET /webhook/:urlToken` (strava.ts lines 384-410): a
`hub.verify_token` different from the configured secret gets 401
"Invalid token"; a missing or empty `hub.challenge` gets 401 "Missing
hub challenge"; otherwise the challenge is echoed back as
`{"hub.challenge": challenge}`. -/
def stravaWebhookChallenge (configuredVerifyToken : String)
    (challenge : Option String) (verifyToken : Option String) : Response :=
  if verifyToken != some configuredVerifyToken then
    .error "Invalid token" 401
  else if !strT challenge then
    .error "Missing hub challenge" 401
  else
    .json [("hub.challenge", .str (challenge.getD ""))]

/-- Embedding of the startup hydration of the in-memory ignored list
(strava.ts line 20): the durable `"users"` record is read and, when it
carries an `ignored` field, its contents are appended to the in-memory
list. -/
def hydrateIgnored (mem : List String) (durable : Option (List String)) : List String :=
  match durable with
  | some l => mem ++ l
  | none => mem

/-- A concrete user with delayed processing enabled and no processed
activity yet, used to evaluate the relay handler's delayed branch. -/
def userC1 : UserData :=
  ⟨"42", "Jo", false, some ⟨some "at", none⟩, ⟨true⟩, none, none⟩

/-- A concrete user with delayed processing disabled, used to evaluate
the relay handler's immediate branch. -/
def userC2 : UserData :=
  ⟨"7", "Max", false, some ⟨some "tok", none⟩, ⟨false⟩, some 5, some 5⟩

/-- Effects that hand work onward: the fire-and-forget relay call from
the public endpoint, queueing for deferred processing, and the
synchronous processor invocation. -/
def isDispatchEffect : Effect → Bool
  | .fireRelay _ _ => true
  | .queueActivity _ _ => true
  | .processActivity _ _ => true
  | _ => false

/-- A concrete user whose id sits in the in-memory ignored list while
the user record still exists in the store. -/
def userC3 : UserData :=
  ⟨"u3", "Ann", false, some ⟨some "t3", none⟩, ⟨true⟩, none, none⟩

/-- A concrete well-formed activity-create event owned by "u3". -/
def bodyC3 : WebhookBody :=
  ⟨some "create", some 1, some 55, some "activity", "u3", none⟩

/-- A concrete well-formed activity-create event owned by "44". -/
def bodyC4 : WebhookBody :=
  ⟨some "create", some 11, some 101, some "activity", "44", none⟩

/-- A concrete suspended user holding valid tokens. -/
def userC5 : UserData :=
  ⟨"u5", "Sue", true, some ⟨some "t5", none⟩, ⟨false⟩, some 3, some 3⟩

/-- A concrete create event whose body lacks `event_time`. -/
def bodyC7 : WebhookBody :=
  ⟨some "create", none, some 5, some "activity", "9", none⟩

/-- A concrete well-formed deauthorization event: an athlete update
with `updates.authorized == "false"`, owned by "42". -/
def bodyC8 : WebhookBody :=
  ⟨some "update", some 111, some 9, some "athlete", "42", some ⟨some "false"⟩⟩

/-- The same deauthorization event with `event_time` missing. -/
def bodyC8nt : WebhookBody :=
  ⟨some "update", none, some 9, some "athlete", "42", some ⟨some "false"⟩⟩

/-- A concrete well-formed activity-create event owned by "ghost". -/
def bodyC10 : WebhookBody :=
  ⟨some "create", some 2, some 12, some "activity", "ghost", none⟩

/-- C1: the claim states that in the delayed branch
`dateLastProcessedActivity` is left unchanged.  At this concrete input
the user's stored `dateLastProcessedActivity` is `none`, yet the user
record written back by the handler carries
`dateLastProcessedActivity = some 1000`: strava.ts line 478 sets it to
`now` right after queueing, so the claim is false as stated. -/
theorem C1_counterexample :
    userC1.dateLastProcessedActivity = none ∧
    (stravaWebhookActivity [] (fun _ => some userC1) 1000 "42" 77 none).effects =
      [Effect.queueActivity "42" 77,
       Effect.usersUpdate ⟨"42", "Jo", some 1000, some 1000⟩,
       Effect.checkQueuedActivities] := by
  exact ⟨rfl, rfl⟩

/-- C1 (amended): for a request to the internal relay endpoint whose
user exists, holds access tokens, is not suspended, and has
`preferences.delayedProcessing` set, the handler queues the activity
(`queueActivity` with the user and the parsed activityId) and advances
BOTH `dateLastActivity` and `dateLastProcessedActivity` to now in the
user record it writes back, then triggers the queue check and renders
`{ok: true}`. -/
theorem C1_delayed_enqueues_and_stamps_both (ignored : List String)
    (getById : String → Option UserData) (now : Nat)
    (userId : String) (activityId : Int) (proc : Option Processed)
    (user : UserData)
    (hu : getById userId = some user)
    (ht : tokensOk user.stravaTokens = true)
    (hs : user.suspended = false)
    (hd : user.preferences.delayedProcessing = true) :
    stravaWebhookActivity ignored getById now userId activityId proc =
      { response := .json [("ok", .bool true)],
        effects := [.queueActivity user.id activityId,
          .usersUpdate ⟨user.id, user.displayName, some now, some now⟩,
          .checkQueuedActivities],
        ignored := ignored } := by
  unfold stravaWebhookActivity
  simp only [webhookValidator]
  rw [hu]
  simp [ht, hs, hd]

/-- C1 (witness): the amended theorem evaluated at a concrete delayed
user. -/
theorem C1_witness :
    stravaWebhookActivity [] (fun _ => some userC1) 1000 "42" 77 none =
      { response := .json [("ok", .bool true)],
        effects := [.queueActivity "42" 77,
          .usersUpdate ⟨"42", "Jo", some 1000, some 1000⟩,
          .checkQueuedActivities],
        ignored := [] } :=
  C1_delayed_enqueues_and_stamps_both [] (fun _ => some userC1) 1000 "42" 77 none
    userC1 rfl (by decide) rfl rfl

/-- C2: for a request to the internal relay endpoint whose user exists,
holds access tokens, is not suspended, and does not have
`delayedProcessing` set, the external activity processor is invoked (its
effect appears in the trace and its outcome feeds the record written
back); when the outcome is a result without an error field the written
record carries `dateLastActivity = now` and
`dateLastProcessedActivity = now`, and otherwise (error result, or no
result) `dateLastActivity = now` while `dateLastProcessedActivity`
keeps its stored value. -/
theorem C2_immediate_processing (ignored : List String)
    (getById : String → Option UserData) (now : Nat)
    (userId : String) (activityId : Int) (proc : Option Processed)
    (user : UserData)
    (hu : getById userId = some user)
    (ht : tokensOk user.stravaTokens = true)
    (hs : user.suspended = false)
    (hd : user.preferences.delayedProcessing = false) :
    stravaWebhookActivity ignored getById now userId activityId proc =
      { response := .json [("ok", .bool true)],
        effects := [.processActivity user.id activityId,
          .usersUpdate ⟨user.id, user.displayName, some now,
            if procSuccess proc then some now
            else user.dateLastProcessedActivity⟩,
          .checkQueuedActivities],
        ignored := ignored } := by
  unfold stravaWebhookActivity
  simp only [webhookValidator]
  rw [hu]
  simp [ht, hs, hd]

/-- C2 (witness): the theorem evaluated at a concrete immediate user
whose processor call returned a result without an error field: both
timestamps in the written record are `now`. -/
theorem C2_witness :
    stravaWebhookActivity [] (fun _ => some userC2) 2000 "7" 88 (some ⟨none⟩) =
      { response := .json [("ok", .bool true)],
        effects := [.processActivity "7" 88,
          .usersUpdate ⟨"7", "Max", some 2000, some 2000⟩,
          .checkQueuedActivities],
        ignored := [] } :=
  C2_immediate_processing [] (fun _ => some userC2) 2000 "7" 88 (some ⟨none⟩)
    userC2 rfl (by decide) rfl rfl

/-- Helper: whenever `webhookValidator` rejects a POST event, the
effects it issued are either none or exactly the external
deauthorization hook for the event's owner. -/
theorem webhookValidator_reject_effects (obj : WebhookBody)
    (resp : Response) (effs : List Effect)
    (h : webhookValidator .POST obj = .reject resp effs) :
    effs = [] ∨ effs = [Effect.deauthCheck obj.owner_id] := by
  simp only [webhookValidator] at h
  split at h
  · cases h
    exact Or.inl rfl
  · split at h
    · cases h
      exact Or.inr rfl
    · split at h
      · cases h
        exact Or.inl rfl
      · cases h

/-- C3: the claim states that the ignored-user short-circuit runs on
both endpoints, so an event for an ignored user never reaches
processing or the deferred queue on either endpoint.  The internal
relay endpoint never consults the registry: at this concrete input the
user "u3" is in the ignored list, its record still exists in the store,
and the relay handler nevertheless queues activity 55. -/
theorem C3_counterexample :
    ("u3" ∈ (["u3"] : List String)) ∧
    Effect.queueActivity "u3" 55 ∈
      (stravaWebhookActivity ["u3"] (fun _ => some userC3) 5 "u3" 55 none).effects := by
  decide

/-- C3 (amended): only the public POST endpoint runs the ignored-user
short-circuit.  On that endpoint, once `u` is in the registry, no POST
event owned by `u` dispatches any work (no relay call, no queueing, no
processor call): a validated event is answered `{ok: false}` with no
effects at all, and a validator-rejected event issues at most the
external deauthorization hook.  The internal relay endpoint does not
consult the registry. -/
theorem C3_post_ignored_short_circuit (ignored : List String)
    (obj : WebhookBody) (relay : RelayOutcome)
    (hin : ignored.contains obj.owner_id = true) :
    (stravaWebhookPost ignored obj relay).effects.all
        (fun e => !isDispatchEffect e) = true ∧
    (webhookValidator .POST obj = .proceed →
      stravaWebhookPost ignored obj relay =
        { response := .json [("ok", .bool false)], effects := [],
          ignored := ignored }) := by
  have hmem : obj.owner_id ∈ ignored := by simpa using hin
  constructor
  · unfold stravaWebhookPost
    cases h : webhookValidator .POST obj with
    | reject resp effs =>
      rcases webhookValidator_reject_effects obj resp effs h with h2 | h2 <;>
        simp [h2, isDispatchEffect]
    | proceed =>
      simp [hmem]
  · intro hv
    unfold stravaWebhookPost
    rw [hv]
    simp [hmem]

/-- C3 (witness): the amended short-circuit evaluated at a concrete
ignored owner and a concrete validated create event. -/
theorem C3_witness :
    stravaWebhookPost ["u3"] bodyC3 .delivered =
      { response := .json [("ok", .bool false)], effects := [],
        ignored := ["u3"] } :=
  (C3_post_ignored_short_circuit ["u3"] bodyC3 .delivered (by decide)).2 (by decide)

/-- C4: for a validated activity-create event at the public POST
endpoint with a non-ignored owner, the `{ok: true}` acknowledgement and
the resulting ignored list are the same for every transport outcome of
the relay call (the response never waits on, or depends on, the relay);
a delivered relay leaves exactly the relay-call effect, and a failed
relay additionally leaves only a debug-log effect — it never alters the
response. -/
theorem C4_ack_independent_of_relay (ignored : List String) (obj : WebhookBody)
    (hv : webhookValidator .POST obj = .proceed)
    (hin : ignored.contains obj.owner_id = false) :
    (∀ r : RelayOutcome,
      (stravaWebhookPost ignored obj r).response = .json [("ok", .bool true)] ∧
      (stravaWebhookPost ignored obj r).ignored = ignored) ∧
    (stravaWebhookPost ignored obj .delivered).effects =
      [Effect.fireRelay obj.owner_id (obj.object_id.getD 0)] ∧
    (∀ e : String, (stravaWebhookPost ignored obj (.failed e)).effects =
      [Effect.fireRelay obj.owner_id (obj.object_id.getD 0),
       Effect.logRelayFailure obj.owner_id (obj.object_id.getD 0)]) := by
  have hmem : obj.owner_id ∉ ignored := by simpa using hin
  refine ⟨fun r => ?_, ?_, fun e => ?_⟩ <;>
    unfold stravaWebhookPost <;> rw [hv] <;> simp [hmem]

/-- C4 (witness): the theorem evaluated at a concrete create event,
once with a delivered relay and once with a failed one: the same
`{ok: true}` response, with the failure only adding a log effect. -/
theorem C4_witness :
    (stravaWebhookPost [] bodyC4 .delivered).response =
        .json [("ok", .bool true)] ∧
    (stravaWebhookPost [] bodyC4 (.failed "ECONNREFUSED")).response =
        .json [("ok", .bool true)] ∧
    (stravaWebhookPost [] bodyC4 (.failed "ECONNREFUSED")).effects =
      [Effect.fireRelay "44" 101, Effect.logRelayFailure "44" 101] :=
  ⟨((C4_ack_independent_of_relay [] bodyC4 (by decide) (by decide)).1 .delivered).1,
   ((C4_ack_independent_of_relay [] bodyC4 (by decide) (by decide)).1 (.failed "ECONNREFUSED")).1,
   (C4_ack_independent_of_relay [] bodyC4 (by decide) (by decide)).2.2 "ECONNREFUSED"⟩

/-- C5: the claim states that a suspended user's relay request is
answered `{ok: false, suspended: true}`.  At this concrete input the
handler renders `{ok: false, message: "User u5 is suspended"}` — there
is no `suspended` field in the body — so the claim's response shape is
false as stated. -/
theorem C5_counterexample :
    (stravaWebhookActivity [] (fun _ => some userC5) 9 "u5" 3 none).response ≠
      Response.json [("ok", JVal.bool false), ("suspended", JVal.bool true)] := by
  decide

/-- C5 (amended): for a relay request whose user exists and holds
tokens but is suspended, the handler is a no-op rendering
`{ok: false, message: "User <id> is suspended"}`: no effect is issued
(no queueing, no processor call, no user-record write, no app-state
write) and the ignored list is unchanged. -/
theorem C5_suspended_noop (ignored : List String)
    (getById : String → Option UserData) (now : Nat)
    (userId : String) (activityId : Int) (proc : Option Processed)
    (user : UserData)
    (hu : getById userId = some user)
    (ht : tokensOk user.stravaTokens = true)
    (hs : user.suspended = true) :
    stravaWebhookActivity ignored getById now userId activityId proc =
      { response := .json [("ok", .bool false),
          ("message", .str ("User " ++ user.id ++ " is suspended"))],
        effects := [], ignored := ignored } := by
  unfold stravaWebhookActivity
  simp only [webhookValidator]
  rw [hu]
  simp [ht, hs]

/-- C5 (witness): the amended theorem evaluated at a concrete suspended
user. -/
theorem C5_witness :
    stravaWebhookActivity [] (fun _ => some userC5) 9 "u5" 3 none =
      { response := .json [("ok", .bool false),
          ("message", .str "User u5 is suspended")],
        effects := [], ignored := [] } :=
  C5_suspended_noop [] (fun _ => some userC5) 9 "u5" 3 none userC5 rfl (by decide) rfl

/-- C6: the subscription-handshake handler answers 401 "Invalid token"
when `hub.verify_token` differs from the configured verify token
(including when it is absent); 401 "Missing hub challenge" when the
token matches but `hub.challenge` is absent or empty; and otherwise
echoes the challenge back unchanged as `{"hub.challenge": <value>}`
with status 200 (a `renderJson` response). -/
theorem C6_subscription_handshake (secret : String)
    (challenge verifyToken : Option String) :
    (verifyToken ≠ some secret →
      stravaWebhookChallenge secret challenge verifyToken =
        .error "Invalid token" 401) ∧
    (verifyToken = some secret → (challenge = none ∨ challenge = some "") →
      stravaWebhookChallenge secret challenge verifyToken =
        .error "Missing hub challenge" 401) ∧
    (∀ c : String, verifyToken = some secret → challenge = some c → c ≠ "" →
      stravaWebhookChallenge secret challenge verifyToken =
        .json [("hub.challenge", .str c)]) := by
  refine ⟨fun h => ?_, fun h hc => ?_, fun c h hc hne => ?_⟩
  · simp [stravaWebhookChallenge, h]
  · subst h
    rcases hc with rfl | rfl <;> simp [stravaWebhookChallenge, strT]
  · subst h
    subst hc
    simp [stravaWebhookChallenge, strT, hne]

/-- C6 (witness): the spec's handshake scenario, with configured token
"SECRET", challenge "abc" and a matching verify token. -/
theorem C6_witness :
    stravaWebhookChallenge "SECRET" (some "abc") (some "SECRET") =
      .json [("hub.challenge", .str "abc")] :=
  (C6_subscription_handshake "SECRET" (some "abc") (some "SECRET")).2.2 "abc"
    rfl rfl (by decide)

/-- C7: a POST webhook event whose body is missing (JS-falsy) any of
`aspect_type`, `event_time`, `object_id` or `object_type` is rejected
with 400 "Missing event data" and issues no effect at all — in
particular it never fires the relay call, so it can reach neither the
activity processor nor the deferred queue. -/
theorem C7_missing_fields_rejected (ignored : List String)
    (obj : WebhookBody) (relay : RelayOutcome)
    (hm : strT obj.aspect_type = false ∨ intT obj.event_time = false ∨
          intT obj.object_id = false ∨ strT obj.object_type = false) :
    stravaWebhookPost ignored obj relay =
      { response := .error "Missing event data" 400, effects := [],
        ignored := ignored } := by
  unfold stravaWebhookPost
  have hv : webhookValidator .POST obj =
      .reject (.error "Missing event data" 400) [] := by
    simp only [webhookValidator]
    have hcond : (!strT obj.aspect_type || !intT obj.event_time
        || !intT obj.object_id || !strT obj.object_type) = true := by
      rcases hm with h | h | h | h <;> simp [h]
    rw [if_pos hcond]
  rw [hv]

/-- C7 (witness): the theorem evaluated at a concrete create event
whose `event_time` is missing. -/
theorem C7_witness :
    stravaWebhookPost [] bodyC7 .delivered =
      { response := .error "Missing event data" 400, effects := [],
        ignored := [] } :=
  C7_missing_fields_rejected [] bodyC7 .delivered (Or.inr (Or.inl rfl))

/-- C8: the claim states that after a deauthorization event the
ignored-user registry contains the owner id.  At the concrete
well-formed deauthorization event owned by "42" the hook is invoked and
`{authorized: false}` rendered, yet the ignored list stays empty: the
POST path never touches the registry.  Moreover the claim's
quantification over all athlete events with `updates.authorized ==
"false"` also fails when `event_time` is missing: that event is
rejected 400 without invoking the hook. -/
theorem C8_counterexample :
    ((stravaWebhookPost [] bodyC8 .delivered).response =
        .json [("authorized", .bool false)] ∧
      (stravaWebhookPost [] bodyC8 .delivered).effects =
        [.deauthCheck "42"] ∧
      "42" ∉ (stravaWebhookPost [] bodyC8 .delivered).ignored) ∧
    ((stravaWebhookPost [] bodyC8nt .delivered).response =
        .error "Missing event data" 400 ∧
      (stravaWebhookPost [] bodyC8nt .delivered).effects = []) := by
  decide

/-- C8 (amended): for a POST event whose four required fields are all
present, with `object_type == "athlete"` and
`updates.authorized == "false"`, the external deauthorization hook is
invoked with the owner id and `{authorized: false}` is rendered; the
in-memory ignored registry is left unchanged by this path. -/
theorem C8_deauthorization (ignored : List String) (obj : WebhookBody)
    (relay : RelayOutcome)
    (ha : strT obj.aspect_type = true)
    (he : intT obj.event_time = true)
    (ho : intT obj.object_id = true)
    (hot : obj.object_type = some "athlete")
    (hau : updatesAuthorizedFalse obj.updates = true) :
    stravaWebhookPost ignored obj relay =
      { response := .json [("authorized", .bool false)],
        effects := [.deauthCheck obj.owner_id], ignored := ignored } := by
  unfold stravaWebhookPost
  have hto : strT obj.object_type = true := by
    rw [hot]
    rfl
  have hv : webhookValidator .POST obj =
      .reject (.json [("authorized", .bool false)])
        [.deauthCheck obj.owner_id] := by
    simp only [webhookValidator]
    have h1 : (!strT obj.aspect_type || !intT obj.event_time
        || !intT obj.object_id || !strT obj.object_type) = false := by
      simp [ha, he, ho, hto]
    have h2 : (obj.object_type == some "athlete"
        && updatesAuthorizedFalse obj.updates) = true := by
      simp [hot, hau]
    simp [h1, h2]
  rw [hv]

/-- C8 (witness): the amended theorem evaluated at the concrete
well-formed deauthorization event owned by "42". -/
theorem C8_witness :
    stravaWebhookPost [] bodyC8 .delivered =
      { response := .json [("authorized", .bool false)],
        effects := [.deauthCheck "42"], ignored := [] } :=
  C8_deauthorization [] bodyC8 .delivered (by decide) (by decide) (by decide)
    (by decide) (by decide)

/-- C9: within one process lifetime the in-memory ignored list only
grows: startup hydration and both webhook handlers preserve every
existing member (the only mutation is an append), and every durable
app-state write an handler issues targets the record `"users"` and
carries exactly the full updated in-memory list. -/
theorem C9_registry_monotonic_and_persisted :
    (∀ (mem : List String) (durable : Option (List String)) (x : String),
      x ∈ mem → x ∈ hydrateIgnored mem durable) ∧
    (∀ (ignored : List String) (obj : WebhookBody) (relay : RelayOutcome)
        (x : String), x ∈ ignored →
      x ∈ (stravaWebhookPost ignored obj relay).ignored) ∧
    (∀ (ignored : List String) (getById : String → Option UserData)
        (now : Nat) (userId : String) (activityId : Int)
        (proc : Option Processed) (x : String), x ∈ ignored →
      x ∈ (stravaWebhookActivity ignored getById now userId activityId proc).ignored) ∧
    (∀ (ignored : List String) (getById : String → Option UserData)
        (now : Nat) (userId : String) (activityId : Int)
        (proc : Option Processed) (k : String) (l : List String),
      Effect.appStateSet k l ∈
          (stravaWebhookActivity ignored getById now userId activityId proc).effects →
      k = "users" ∧
      l = (stravaWebhookActivity ignored getById now userId activityId proc).ignored) := by
  refine ⟨fun mem durable x hx => ?_, fun ignored obj relay x hx => ?_,
    fun ignored getById now userId activityId proc x hx => ?_,
    fun ignored getById now userId activityId proc k l => ?_⟩
  · cases durable <;> simp [hydrateIgnored] <;> first | exact hx | exact Or.inl hx
  · unfold stravaWebhookPost
    cases h : webhookValidator .POST obj with
    | reject resp effs => simpa using hx
    | proceed =>
      by_cases hc : obj.owner_id ∈ ignored <;> simp [hc] <;> exact hx
  · unfold stravaWebhookActivity
    simp only [webhookValidator]
    cases hg : getById userId with
    | none => simpa using Or.inl hx
    | some user =>
      cases h1 : tokensOk user.stravaTokens <;>
        cases h2 : user.suspended <;>
        cases h3 : user.preferences.delayedProcessing <;>
        simp [h1, h2, h3] <;> exact hx
  · unfold stravaWebhookActivity
    simp only [webhookValidator]
    cases hg : getById userId with
    | none =>
      intro hmem
      simp only [List.mem_cons, List.mem_singleton] at hmem
      rcases hmem with hmem | hmem | hmem
      · exact absurd hmem (by simp)
      · injection hmem with hk hl
        exact ⟨hk, hl⟩
      · exact absurd hmem (by simp)
    | some user =>
      cases h1 : tokensOk user.stravaTokens <;>
        cases h2 : user.suspended <;>
        cases h3 : user.preferences.delayedProcessing <;>
        simp [h1, h2, h3]

/-- C9 (witness): hydration preserves an existing member, and the
durable write issued when the relay handler ignores an unknown user
carries exactly the full updated list. -/
theorem C9_witness :
    "a" ∈ hydrateIgnored ["a"] (some ["b"]) ∧
    ("users" = "users" ∧
      ["c"] = (stravaWebhookActivity [] (fun _ => none) 1 "c" 2 none).ignored) :=
  ⟨C9_registry_monotonic_and_persisted.1 ["a"] (some ["b"]) "a" (by decide),
   C9_registry_monotonic_and_persisted.2.2.2 [] (fun _ => none) 1 "c" 2 none
     "users" ["c"] (by decide)⟩

/-- C10: when the relay endpoint's `userId` resolves to no user record,
the handler appends the id to the in-memory ignored list, persists the
full updated list to the durable `"users"` record (the only two effects
issued, in that order — no queueing, no processor call, no user-record
write), and renders 404 "User not found"; and every subsequently
validated POST event owned by that id is short-circuited to
`{ok: false}` with no effects. -/
theorem C10_unknown_user_ignored_then_404 (ignored : List String)
    (getById : String → Option UserData) (now : Nat)
    (userId : String) (activityId : Int) (proc : Option Processed)
    (hu : getById userId = none) :
    (stravaWebhookActivity ignored getById now userId activityId proc =
      { response := .error "User not found" 404,
        effects := [.pushIgnored userId,
          .appStateSet "users" (ignored ++ [userId])],
        ignored := ignored ++ [userId] }) ∧
    (∀ (obj : WebhookBody) (relay : RelayOutcome),
      obj.owner_id = userId →
      webhookValidator .POST obj = .proceed →
      stravaWebhookPost (ignored ++ [userId]) obj relay =
        { response := .json [("ok", .bool false)], effects := [],
          ignored := ignored ++ [userId] }) := by
  constructor
  · unfold stravaWebhookActivity
    simp only [webhookValidator]
    rw [hu]
  · intro obj relay ho hv
    unfold stravaWebhookPost
    rw [hv]
    have hmem : obj.owner_id ∈ ignored ++ [userId] := by
      rw [ho]
      exact List.mem_append_right _ (List.mem_singleton.mpr rfl)
    simp [hmem]

/-- C10 (witness): the theorem evaluated at a store with no users: the
relay request for "ghost" ignores it, persists `["ghost"]` and answers
404, and the subsequent create event owned by "ghost" is answered
`{ok: false}` with no relay call. -/
theorem C10_witness :
    (stravaWebhookActivity [] (fun _ => none) 4 "ghost" 12 none =
      { response := .error "User not found" 404,
        effects := [.pushIgnored "ghost", .appStateSet "users" ["ghost"]],
        ignored := ["ghost"] }) ∧
    (stravaWebhookPost ["ghost"] bodyC10 .delivered =
      { response := .json [("ok", .bool false)], effects := [],
        ignored := ["ghost"] }) :=
  ⟨(C10_unknown_user_ignored_then_404 [] (fun _ => none) 4 "ghost" 12 none rfl).1,
   (C10_unknown_user_ignored_then_404 [] (fun _ => none) 4 "ghost" 12 none rfl).2
     bodyC10 .delivered rfl (by decide)⟩

end Strautomator
